import Mathlib

/-!
Shallow embedding of the rollout core of the elasticsearch operator:
the pod-spec difference rule (internal/manifests/pod/compare.go), the
deployment/statefulset conditional-update backends
(internal/manifests/deployment/deployment.go,
internal/manifests/statefulset/statefulset.go), the configuration and
credential bundle fingerprints (getSecretDataHash, getConfigmapDataHash)
and the deploymentNode state machine (scale/pause/update/wait/create/
progressNodeChanges).

Machine state (the cluster API server) is modelled explicitly: the one
workload object of the node group is an `Option Deployment` (`none` is
NotFound), the two bundles are `Option` association lists, and a ghost
counter `writes` counts every create or update call issued against the
backend.  Pod listings during the bounded polling loops are supplied as a
function from the poll tick to the observed pod list, since pods converge
under an external controller.
-/

/-- One toleration entry of a pod spec. -/
structure Toleration where
  key : String
  value : String
  effect : String
deriving DecidableEq, Repr

/-- The container fields that the pod-spec-difference rule inspects
(compare.go inspects Name, Image, VolumeMounts, Env, Args, Ports,
Resources; the individual field comparators live outside the embedded
sources, so each field is kept abstract and leaf comparisons follow the
documented behaviour). -/
structure Container where
  name : String
  image : String
  volumeMounts : List String
  env : List (String × String)
  args : List String
  ports : List Nat
  resources : Nat
deriving DecidableEq, Repr

/-- The pod-spec fields inspected by ArePodSpecDifferent. -/
structure PodSpec where
  containers : List Container
  nodeSelector : List (String × String)
  tolerations : List Toleration
deriving DecidableEq, Repr

/-- Modelled from the spec: node-selector comparison, any mismatch counts
as changed (comparators.AreSelectorsSame is outside the embedded sources). -/
def AreSelectorsSame (lhs rhs : List (String × String)) : Bool :=
  decide (lhs = rhs)

/-- Modelled from the spec: strict toleration comparison, "if strict they
need to be the same" (comparators.AreTolerationsSame is outside the
embedded sources). -/
def AreTolerationsSame (lhs rhs : List Toleration) : Bool :=
  decide (lhs = rhs)

/-- Modelled from the spec: non-strict toleration comparison, a superset
check — every rhs toleration must be present on the lhs pod, which may
carry additional ones added by the platform
(comparators.ContainsSameTolerations is outside the embedded sources). -/
def ContainsSameTolerations (lhs rhs : List Toleration) : Bool :=
  rhs.all (fun t => lhs.any (fun s => decide (s = t)))

/-- Modelled from the spec: volume-mount comparison, "check that
rContainer is all found within lContainer"
(comparators.ContainsSameVolumeMounts is outside the embedded sources). -/
def ContainsSameVolumeMounts (lhs rhs : List String) : Bool :=
  rhs.all (fun v => lhs.any (fun w => decide (w = v)))

/-- Modelled from the spec: environment comparison, any mismatch counts as
changed (comparators.EnvValueEqual is outside the embedded sources). -/
def EnvValueEqual (lhs rhs : List (String × String)) : Bool :=
  decide (lhs = rhs)

/-- Modelled from the spec: resource-requirements comparison, any mismatch
counts as changed (comparators.AreResourceRequementsSame is outside the
embedded sources). -/
def AreResourceRequementsSame (lhs rhs : Nat) : Bool :=
  decide (lhs = rhs)

/-- The per-container field checks of the loop body of ArePodSpecDifferent
(compare.go lines 54-87): run against every rhs container bearing the same
name; any field mismatch marks the specs changed. -/
def containerFieldsMismatch (lC rC : Container) : Bool :=
  !ContainsSameVolumeMounts lC.volumeMounts rC.volumeMounts
  || decide (lC.image ≠ rC.image)
  || !EnvValueEqual lC.env rC.env
  || decide (lC.args ≠ rC.args)
  || decide (lC.ports ≠ rC.ports)
  || !AreResourceRequementsSame lC.resources rC.resources

/-- ArePodSpecDifferent (compare.go lines 23-94): true when the container
counts differ, the node selectors differ, the tolerations differ (strict
equality when strictTolerations, superset check otherwise), some lhs
container shares a name with an rhs container but mismatches a compared
field, or some lhs container's name appears on no rhs container.  The Go
accumulator variable changed is monotone, so the function equals the
disjunction of its triggers. -/
def ArePodSpecDifferent (lhs rhs : PodSpec) (strictTolerations : Bool) : Bool :=
  decide (lhs.containers.length ≠ rhs.containers.length)
  || !AreSelectorsSame lhs.nodeSelector rhs.nodeSelector
  || (if strictTolerations then
        !AreTolerationsSame lhs.tolerations rhs.tolerations
      else
        !ContainsSameTolerations lhs.tolerations rhs.tolerations)
  || lhs.containers.any (fun lC =>
       rhs.containers.any (fun rC =>
         decide (lC.name = rC.name) && containerFieldsMismatch lC rC)
       || !rhs.containers.any (fun rC => decide (lC.name = rC.name)))

/-- ArePodTemplateSpecDifferent (compare.go lines 13-15): the strict
variant used when comparing workload templates. -/
def ArePodTemplateSpecDifferent (lhs rhs : PodSpec) : Bool :=
  ArePodSpecDifferent lhs rhs true

example :
    ArePodSpecDifferent
      ⟨[⟨"es", "img1", [], [], [], [], 1⟩], [], []⟩
      ⟨[⟨"es", "img2", [], [], [], [], 1⟩], [], []⟩ false = true := by decide

example :
    ArePodSpecDifferent
      ⟨[⟨"es", "img1", [], [], [], [], 1⟩], [], [⟨"k", "v", "e"⟩]⟩
      ⟨[⟨"es", "img1", [], [], [], [], 1⟩], [], []⟩ false = false := by decide

example :
    ArePodTemplateSpecDifferent
      ⟨[⟨"es", "img1", [], [], [], [], 1⟩], [], [⟨"k", "v", "e"⟩]⟩
      ⟨[⟨"es", "img1", [], [], [], [], 1⟩], [], []⟩ = true := by decide

/-- Models crypto/sha256.Sum256 as an unspecified digest of exactly 32
entries.  Claims that need two digests to be distinct carry that
distinctness as an explicit hypothesis, which is the spec's
collision-tolerant reading of SHA-256. -/
def sha256Model (s : String) : List Nat :=
  (s.data.map Char.toNat ++ List.replicate 32 0).take 32

/-- Modelled from the spec: sortDataHashKeys (outside the embedded
sources) returns the bundle keys sorted lexicographically. -/
def sortDataHashKeys (keys : List String) : List String :=
  keys.insertionSort (· ≤ ·)

/-- Indexing the dataHashes map built while iterating the bundle: the
value stored under a key (bundles have unique keys, mirrored as a Nodup
hypothesis on the theorems). -/
def lookupValue (data : List (String × String)) (k : String) : String :=
  match data.find? (fun kv => decide (kv.1 = k)) with
  | some kv => kv.2
  | none => ""

/-- The digest loop shared by getSecretDataHash and getConfigmapDataHash:
hash every entry value, sort the keys, and concatenate the per-key hashes
in sorted key order.  The Go code concatenates the raw 32-byte digests
into a string; the model concatenates them into one list. -/
def dataHashCore (data : List (String × String)) : List Nat :=
  ((sortDataHashKeys (data.map Prod.fst)).map
    (fun k => sha256Model (lookupValue data k))).flatten

/-- getSecretDataHash body on a fetched credential bundle
(part_002 lines 65-77): every key participates. -/
def secretDataHashOf (data : List (String × String)) : List Nat :=
  dataHashCore data

/-- getConfigmapDataHash body on a fetched configuration bundle
(configmaps.go lines 221-235): the volatile index_settings key is skipped
while building the hash map, which equals pre-filtering the entries. -/
def configmapDataHashOf (data : List (String × String)) : List Nat :=
  dataHashCore (data.filter (fun kv => decide (kv.1 ≠ "index_settings")))

example : secretDataHashOf [("a", "x")] = sha256Model "x" := by
  simp [secretDataHashOf, dataHashCore, sortDataHashKeys, lookupValue,
    List.insertionSort]

example :
    configmapDataHashOf [("index_settings", "zzz")] = [] := by decide

/-- The error taxonomy visible to the embedded operations.  nilDeref marks
the modelled nil-pointer dereference of getConfigmapDataHash on a failed
fetch, which in Go is a crash rather than a returned error. -/
inductive OpErr where
  | notFound
  | timeout
  | nilDeref
deriving DecidableEq, Repr

/-- OperationResultType of internal/manifests/status: unchanged when
neither a create nor an update executed, otherwise created or updated. -/
inductive OperationResultType where
  | unchanged
  | created
  | updated
deriving DecidableEq, Repr

/-- The fields of the workload object that the embedded code reads or
writes.  revision models the deployment.kubernetes.io/revision value
stamped by the platform controller. -/
structure Deployment where
  resourceVersion : String
  replicas : Int
  paused : Bool
  template : PodSpec
  revision : Option String
deriving DecidableEq, Repr

/-- The persisted state behind the cluster API for one node group: the
workload object (none is NotFound), the credential bundle and the
configuration bundle (none is NotFound), plus a ghost counter of every
create or update call issued against the backend. -/
structure Backend where
  dpl : Option Deployment
  secretData : Option (List (String × String))
  configData : Option (List (String × String))
  writes : Nat
deriving DecidableEq, Repr

/-- getSecretDataHash (part_002 lines 55-78): a failed fetch returns the
empty digest. -/
def getSecretDataHash (b : Backend) : List Nat :=
  match b.secretData with
  | none => []
  | some data => secretDataHashOf data

/-- getConfigmapDataHash (configmaps.go lines 212-236): the fetch error is
ignored (the TODO in the source) and the nil configmap is dereferenced, so
a failed fetch crashes; none models that crash. -/
def getConfigmapDataHash (b : Backend) : Option (List Nat) :=
  match b.configData with
  | none => none
  | some data => some (configmapDataHashOf data)

/-- deployment.Create (deployment.go lines 40-54): created on success,
AlreadyExists is swallowed into an unchanged result with no error. -/
def deploymentCreate (b : Backend) (d : Deployment) :
    Backend × OperationResultType :=
  match b.dpl with
  | none => ({ b with dpl := some d, writes := b.writes + 1 },
             OperationResultType.created)
  | some _ => (b, OperationResultType.unchanged)

/-- deployment.Update (deployment.go lines 57-92): get the current object
(NotFound surfaces as an error), then mutate and write it only when the
compare function returns false; otherwise leave the persisted object
untouched and report unchanged.  The conflict-retry loop collapses to one
read-modify-write here because the model has no concurrent writer. -/
def deploymentUpdate (b : Backend) (d : Deployment)
    (cmp : Deployment → Deployment → Bool)
    (mutate : Deployment → Deployment → Deployment) :
    Backend × OperationResultType × Option OpErr :=
  match b.dpl with
  | none => (b, OperationResultType.unchanged, some OpErr.notFound)
  | some current =>
    if !cmp current d then
      ({ b with dpl := some (mutate current d), writes := b.writes + 1 },
       OperationResultType.updated, none)
    else
      (b, OperationResultType.unchanged, none)

/-- The statefulset workload object fields touched by the embedded code. -/
structure StatefulSet where
  replicas : Int
  template : PodSpec
deriving DecidableEq, Repr

/-- The persisted statefulset store with the same ghost write counter. -/
structure StsBackend where
  sts : Option StatefulSet
  writes : Nat
deriving DecidableEq, Repr

/-- statefulset.Update (statefulset.go lines 59-96): same shape as the
deployment variant but the mutate-and-write branch runs when the compare
function returns true. -/
def statefulsetUpdate (b : StsBackend) (s : StatefulSet)
    (cmp : StatefulSet → StatefulSet → Bool)
    (mutate : StatefulSet → StatefulSet → StatefulSet) :
    StsBackend × OperationResultType × Option OpErr :=
  match b.sts with
  | none => (b, OperationResultType.unchanged, some OpErr.notFound)
  | some current =>
    if cmp current s then
      ({ b with sts := some (mutate current s), writes := b.writes + 1 },
       OperationResultType.updated, none)
    else
      (b, OperationResultType.unchanged, none)

/-- The deploymentNode record (part_001 lines 24-38): the in-memory copy
of the workload, the two recorded bundle fingerprints and the stored
desired replica count. -/
structure DeploymentNode where
  self : Deployment
  configmapHash : List Nat
  secretHash : List Nat
  replicas : Int
deriving DecidableEq, Repr

/-- populateReference (part_001 lines 40-64): builds a fresh in-memory
workload from the desired template and replica count.  The builder chain
sets no paused field, so the object carries the Go zero value false, as
the create comment in the source states; a fresh object has no resource
version and no revision, and the node record starts with empty recorded
hashes. -/
def populateReference (template : PodSpec) (replicas : Int) :
    DeploymentNode :=
  { self := { resourceVersion := ""
              replicas := replicas
              paused := false
              template := template
              revision := none }
    configmapHash := []
    secretHash := []
    replicas := replicas }

/-- setPaused (part_001 lines 231-254): conditional update whose compare
function always returns false, so the write is always issued; on success
the in-memory copy records the new flag. -/
def setPaused (b : Backend) (node : DeploymentNode) (paused : Bool) :
    Backend × DeploymentNode × Option OpErr :=
  match deploymentUpdate b node.self (fun _ _ => false)
      (fun current _ => { current with paused := paused }) with
  | (b', _, some e) => (b', node, some e)
  | (b', _, none) =>
    (b', { node with self := { node.self with paused := paused } }, none)

/-- pause (part_001 lines 223-225). -/
def pause (b : Backend) (node : DeploymentNode) :
    Backend × DeploymentNode × Option OpErr :=
  setPaused b node true

/-- unpause (part_001 lines 227-229). -/
def unpause (b : Backend) (node : DeploymentNode) :
    Backend × DeploymentNode × Option OpErr :=
  setPaused b node false

/-- setReplicaCount (part_001 lines 256-279): conditional update whose
compare function always returns true; on success the in-memory copy
records the new count. -/
def setReplicaCount (b : Backend) (node : DeploymentNode) (replicas : Int) :
    Backend × DeploymentNode × Option OpErr :=
  match deploymentUpdate b node.self (fun _ _ => true)
      (fun current _ => { current with replicas := replicas }) with
  | (b', _, some e) => (b', node, some e)
  | (b', _, none) =>
    (b', { node with self := { node.self with replicas := replicas } }, none)

/-- scaleDown (part_001 lines 70-72). -/
def scaleDown (b : Backend) (node : DeploymentNode) :
    Backend × DeploymentNode × Option OpErr :=
  setReplicaCount b node 0

/-- scaleUp (part_001 lines 74-76). -/
def scaleUp (b : Backend) (node : DeploymentNode) :
    Backend × DeploymentNode × Option OpErr :=
  setReplicaCount b node node.replicas

/-- Modelled from the spec: createUpdatablePodTemplateSpec (outside the
embedded sources) merges only the template portion of the desired state
into the live object. -/
def createUpdatablePodTemplateSpec (_current desired : PodSpec) : PodSpec :=
  desired

/-- executeUpdate (part_001 lines 322-346): conditional update whose
compare function is the strict template difference and whose mutation
merges the desired template into the current object. -/
def executeUpdate (b : Backend) (node : DeploymentNode) :
    Backend × Option OpErr :=
  match deploymentUpdate b node.self
      (fun current desired =>
        ArePodTemplateSpecDifferent current.template desired.template)
      (fun current desired =>
        { current with
            template :=
              createUpdatablePodTemplateSpec current.template
                desired.template }) with
  | (b', _, some e) => (b', some e)
  | (b', _, none) => (b', none)

/-- isChanged (part_001 lines 391-402): true when the workload is absent
(NotFound) or the live template differs strictly from the desired one.
Backend failures other than NotFound, which the Go code maps to false, are
outside this state model. -/
def isChanged (b : Backend) (node : DeploymentNode) : Bool :=
  match b.dpl with
  | none => true
  | some current =>
    ArePodTemplateSpecDifferent current.template node.self.template

/-- checkPodSpecMatches (part_001 lines 207-221) applied to one observed
pod listing: a failed listing (none) yields false, otherwise true as soon
as some listed pod is not different from the desired template under the
non-strict rule. -/
def checkPodSpecMatches (template : PodSpec)
    (pods : Option (List PodSpec)) : Bool :=
  match pods with
  | none => false
  | some podList =>
    podList.any (fun p => !ArePodSpecDifferent p template false)

/-- podSpecMatches (part_001 lines 199-205): the single immediate check,
fed with the pod listing observed at that moment. -/
def podSpecMatches (node : DeploymentNode)
    (pods : Option (List PodSpec)) : Bool :=
  checkPodSpecMatches node.self.template pods

/-- One-second polling against a 30-second deadline gives 30 attempts. -/
def numRolloutPolls : Nat := 30

/-- wait.Poll: run the condition at successive ticks until it yields true
(success), yields an error (surfaced), or the attempts are exhausted
(timeout). -/
def pollFrom (cond : Nat → Option OpErr ⊕ Bool) :
    Nat → Nat → Option OpErr
  | _, 0 => some OpErr.timeout
  | i, fuel + 1 =>
    match cond i with
    | Sum.inl (some e) => some e
    | Sum.inl none => some OpErr.timeout
    | Sum.inr true => none
    | Sum.inr false => pollFrom cond (i + 1) fuel

/-- waitForNodeRollout (part_001 lines 188-197): poll the pod listing for
up to 30 ticks; each tick succeeds exactly when checkPodSpecMatches does
on the listing observed at that tick.  The result none is success. -/
def waitForNodeRollout (node : DeploymentNode)
    (podsAt : Nat → Option (List PodSpec)) : Option OpErr :=
  pollFrom
    (fun i => Sum.inr (checkPodSpecMatches node.self.template (podsAt i)))
    0 numRolloutPolls

/-- waitForInitialRollout (part_001 lines 160-176): poll the workload for
up to 30 ticks until its revision value appears; a failed get aborts the
poll with that error. -/
def waitForInitialRollout (getAt : Nat → Option Deployment) :
    Option OpErr :=
  pollFrom
    (fun i =>
      match getAt i with
      | none => Sum.inl (some OpErr.notFound)
      | some d => Sum.inr (decide (d.revision ≠ none)))
    0 numRolloutPolls

/-- refreshHashes (part_001 lines 379-389): recompute both digests and
record any change; none propagates the modelled crash of the configmap
variant on a failed fetch. -/
def refreshHashes (b : Backend) (node : DeploymentNode) :
    Option DeploymentNode :=
  match getConfigmapDataHash b with
  | none => none
  | some newConfigmapHash =>
    let node1 :=
      if newConfigmapHash ≠ node.configmapHash then
        { node with configmapHash := newConfigmapHash }
      else node
    let newSecretHash := getSecretDataHash b
    some (if newSecretHash ≠ node1.secretHash then
        { node1 with secretHash := newSecretHash }
      else node1)

/-- create (part_001 lines 124-158): when the in-memory copy has no
resource version, create the workload (AlreadyExists is swallowed by
deployment.Create), wait for the first revision to appear, record both
bundle digests, and finally pause; when a resource version is present the
call only pauses.  getAt supplies the workload observed at each tick of
the initial-rollout wait. -/
def create (b : Backend) (node : DeploymentNode)
    (getAt : Nat → Option Deployment) :
    Backend × DeploymentNode × Option OpErr :=
  if node.self.resourceVersion = "" then
    match waitForInitialRollout getAt with
    | some e => ((deploymentCreate b node.self).1, node, some e)
    | none =>
      match getConfigmapDataHash (deploymentCreate b node.self).1 with
      | none => ((deploymentCreate b node.self).1, node, some OpErr.nilDeref)
      | some ch =>
        pause (deploymentCreate b node.self).1
          { node with
              configmapHash := ch
              secretHash := getSecretDataHash (deploymentCreate b node.self).1 }
  else
    pause b node

/-- progressNodeChanges (part_001 lines 348-377): no-op when nothing is
changed and the pods already match; otherwise executeUpdate, unpause, wait
for the rollout (a failed wait surfaces as a timeout error with no further
writes), pause and refresh both fingerprints.  podsAt supplies the pod
listing observed at each poll tick; the entry check reads tick zero. -/
def progressNodeChanges (b : Backend) (node : DeploymentNode)
    (podsAt : Nat → Option (List PodSpec)) :
    Backend × DeploymentNode × Option OpErr :=
  if !isChanged b node && podSpecMatches node (podsAt 0) then
    (b, node, none)
  else
    match executeUpdate b node with
    | (b1, some e) => (b1, node, some e)
    | (b1, none) =>
      match unpause b1 node with
      | (b2, node2, some e) => (b2, node2, some e)
      | (b2, node2, none) =>
        match waitForNodeRollout node2 podsAt with
        | some _ => (b2, node2, some OpErr.timeout)
        | none =>
          match pause b2 node2 with
          | (b3, node3, some e) => (b3, node3, some e)
          | (b3, node3, none) =>
            match refreshHashes b3 node3 with
            | none => (b3, node3, some OpErr.nilDeref)
            | some node4 => (b3, node4, none)

/-! Concrete fixtures used by several claims: a node group whose live
template carries one extra toleration, so the strict template rule sees
drift while the non-strict pod rule does not. -/

/-- The one desired container of the fixture group. -/
def fixContainer : Container := ⟨"es", "img1", [], [], [], [], 1⟩

/-- Desired template of the fixture group. -/
def tmplDesired : PodSpec := ⟨[fixContainer], [], []⟩

/-- Live template of the fixture group: identical except for one extra
toleration. -/
def tmplLive : PodSpec := ⟨[fixContainer], [], [⟨"k", "v", "e"⟩]⟩

/-- The persisted workload of the fixture group. -/
def dplLive : Deployment := ⟨"123", 3, true, tmplLive, some "1"⟩

/-- The persisted backend of the fixture group. -/
def backend0 : Backend :=
  ⟨some dplLive, some [("tls.key", "s")], some [("elasticsearch.yml", "c")], 0⟩

/-- The fixture node: desired template without the extra toleration,
desired replica count 3. -/
def node0 : DeploymentNode :=
  ⟨⟨"123", 3, true, tmplDesired, some "1"⟩, [], [], 3⟩

/-- Pod listing observed at every tick: one pod carrying the live
template, which the non-strict rule accepts against the desired one. -/
def obs0 : Nat → Option (List PodSpec) := fun _ => some [tmplLive]

/-- Pod listing whose single pod runs a different image, so no tick ever
matches the desired template. -/
def obsBad : Nat → Option (List PodSpec) :=
  fun _ => some [⟨[⟨"es", "img2", [], [], [], [], 1⟩], [], []⟩]

/-- pollFrom on a condition that never errors succeeds exactly when some
tick within the deadline satisfies it. -/
theorem pollFrom_bool_eq_none_iff (cond : Nat → Bool) :
    ∀ fuel start, pollFrom (fun i => Sum.inr (cond i)) start fuel = none ↔
      ∃ j < fuel, cond (start + j) = true := by
  intro fuel
  induction fuel with
  | zero => intro start; simp [pollFrom]
  | succ n ih =>
    intro start
    by_cases h : cond start = true
    · simp only [pollFrom, h]
      constructor
      · intro _; exact ⟨0, Nat.succ_pos n, by simpa using h⟩
      · intro _; trivial
    · have hfalse : cond start = false := by
        cases hc : cond start
        · rfl
        · exact absurd hc h
      simp only [pollFrom, hfalse]
      rw [ih (start + 1)]
      constructor
      · rintro ⟨j, hj, hcj⟩
        exact ⟨j + 1, by omega, by
          have : start + 1 + j = start + (j + 1) := by omega
          rw [this] at hcj; exact hcj⟩
      · rintro ⟨j, hj, hcj⟩
        match j, hj, hcj with
        | 0, _, hcj => exact absurd (by simpa using hcj) h
        | j + 1, hj, hcj =>
          exact ⟨j, by omega, by
            have : start + (j + 1) = start + 1 + j := by omega
            rw [this] at hcj; exact hcj⟩

/-- C1: the spec reads the scale operations as unconditional backend
writes, but deployment.Update only writes when the compare function
returns false and both scale paths pass a compare function that is
constantly true, so a scale call leaves the persisted backend byte-for-
byte unchanged (live replicas stay 0 although the stored desired count is
3) while still reporting success. -/
theorem c1_scale_calls_issue_no_backend_write :
    (scaleUp backend0 node0).2.2 = none ∧
    (scaleUp backend0 node0).1 = backend0 ∧
    (scaleDown backend0 node0).2.2 = none ∧
    (scaleDown backend0 node0).1 = backend0 ∧
    backend0.writes = 0 ∧ node0.replicas = 3 := by decide

/-- C2 counterexample: the per-poll predicate accepts a listing in which
one pod matches the desired template while another listed pod runs a
different image, and the rollout wait succeeds on that listing, so the
predicate is not the claimed all-pods condition. -/
theorem c2_counterexample :
    checkPodSpecMatches tmplDesired
      (some [tmplDesired, ⟨[⟨"es", "img2", [], [], [], [], 1⟩], [], []⟩])
      = true ∧
    ArePodSpecDifferent ⟨[⟨"es", "img2", [], [], [], [], 1⟩], [], []⟩
      tmplDesired false = true ∧
    waitForNodeRollout node0
      (fun _ => some [tmplDesired, ⟨[⟨"es", "img2", [], [], [], [], 1⟩], [], []⟩])
      = none := by decide

/-- C2 (amended): the per-poll predicate succeeds exactly when the pod
listing succeeded and SOME listed pod matches the desired template under
the non-strict rule (in particular an empty listing never succeeds), and
waitForNodeRollout succeeds exactly when some poll tick within the
30-attempt deadline satisfies that predicate. -/
theorem c2_rollout_predicate_some_pod (template : PodSpec)
    (obs : Option (List PodSpec)) (node : DeploymentNode)
    (podsAt : Nat → Option (List PodSpec)) :
    (checkPodSpecMatches template obs = true ↔
      ∃ podList, obs = some podList ∧
        ∃ p ∈ podList, ArePodSpecDifferent p template false = false) ∧
    (waitForNodeRollout node podsAt = none ↔
      ∃ i < numRolloutPolls,
        checkPodSpecMatches node.self.template (podsAt i) = true) := by
  constructor
  · cases obs with
    | none => simp [checkPodSpecMatches]
    | some podList =>
      simp [checkPodSpecMatches, List.any_eq_true, Bool.not_eq_true']
  · rw [waitForNodeRollout, pollFrom_bool_eq_none_iff]
    simp

/-- C5: after a first successful progressNodeChanges on the fixture group
(whose live template drifts only by a toleration, so the strict rule
reports drift on every pass while executeUpdate never writes the template
because its compare polarity is inverted), an immediately repeated call
with the identical backend observations issues two further backend writes
(the unpause and the pause) instead of the claimed zero. -/
theorem c5_second_call_issues_two_more_writes :
    (progressNodeChanges backend0 node0 obs0).2.2 = none ∧
    (progressNodeChanges (progressNodeChanges backend0 node0 obs0).1
        (progressNodeChanges backend0 node0 obs0).2.1 obs0).1.writes =
      (progressNodeChanges backend0 node0 obs0).1.writes + 2 ∧
    (progressNodeChanges backend0 node0 obs0).1.writes = 2 := by decide

/-- C8: on a backend where both bundle fetches fail, the credential
variant returns the empty digest as claimed, but the configuration
variant reaches the modelled nil-pointer dereference (its Go source
ignores the fetch error behind a TODO and dereferences the nil
configmap), so it crashes instead of returning the empty digest; the
crash propagates out of refreshHashes. -/
theorem c8_configmap_fetch_failure_crashes :
    getSecretDataHash ⟨some dplLive, none, none, 0⟩ = [] ∧
    getConfigmapDataHash ⟨some dplLive, none, none, 0⟩ = none ∧
    refreshHashes ⟨some dplLive, none, none, 0⟩ node0 = none := by decide

/-- C10: with the stored object present, deployment.Update mutates and
writes exactly when the compare function returns false while
statefulset.Update does so exactly when it returns true, and in either
backend the no-write case reports unchanged and leaves the persisted
state untouched. -/
theorem c10_update_gate_polarity (b : Backend) (cur d : Deployment)
    (cmp : Deployment → Deployment → Bool)
    (mutate : Deployment → Deployment → Deployment)
    (sb : StsBackend) (scur s : StatefulSet)
    (scmp : StatefulSet → StatefulSet → Bool)
    (smutate : StatefulSet → StatefulSet → StatefulSet)
    (hd : b.dpl = some cur) (hs : sb.sts = some scur) :
    (cmp cur d = false →
      deploymentUpdate b d cmp mutate =
        ({ b with dpl := some (mutate cur d), writes := b.writes + 1 },
         OperationResultType.updated, none)) ∧
    (cmp cur d = true →
      deploymentUpdate b d cmp mutate =
        (b, OperationResultType.unchanged, none)) ∧
    (scmp scur s = true →
      statefulsetUpdate sb s scmp smutate =
        ({ sb with sts := some (smutate scur s), writes := sb.writes + 1 },
         OperationResultType.updated, none)) ∧
    (scmp scur s = false →
      statefulsetUpdate sb s scmp smutate =
        (sb, OperationResultType.unchanged, none)) := by
  refine ⟨fun hc => ?_, fun hc => ?_, fun hc => ?_, fun hc => ?_⟩
  · simp [deploymentUpdate, hd, hc]
  · simp [deploymentUpdate, hd, hc]
  · simp [statefulsetUpdate, hs, hc]
  · simp [statefulsetUpdate, hs, hc]

/-- A successful setPaused determines the whole outcome: the store held
an object, the write toggled its flag, and the in-memory copy recorded
the flag. -/
theorem setPaused_some (b : Backend) (node : DeploymentNode) (p : Bool)
    (cur : Deployment) (h : b.dpl = some cur) :
    setPaused b node p =
      ({ b with dpl := some { cur with paused := p },
                writes := b.writes + 1 },
       { node with self := { node.self with paused := p } }, none) := by
  rw [setPaused, deploymentUpdate, h]
  simp

/-- A successful setPaused determines the whole outcome: the store held
an object, the write toggled its flag, and the in-memory copy recorded
the flag. -/
theorem setPaused_ok_shape (b : Backend) (node : DeploymentNode) (p : Bool)
    (b' : Backend) (node' : DeploymentNode)
    (h : setPaused b node p = (b', node', none)) :
    node' = { node with self := { node.self with paused := p } } ∧
    ∃ cur, b.dpl = some cur ∧
      b' = { b with dpl := some { cur with paused := p },
                    writes := b.writes + 1 } := by
  cases hd : b.dpl with
  | none =>
    rw [setPaused, deploymentUpdate, hd] at h
    simp at h
  | some cur =>
    rw [setPaused_some b node p cur hd] at h
    injection h with h1 h2
    injection h2 with h2 h3
    exact ⟨h2.symm, cur, rfl, h1.symm⟩

/-- executeUpdate on a present store never errors: when the strict rule
already reports drift the inverted gate skips the write, and otherwise it
writes the merged template. -/
theorem executeUpdate_shape (b : Backend) (node : DeploymentNode)
    (cur : Deployment) (h : b.dpl = some cur) :
    (ArePodTemplateSpecDifferent cur.template node.self.template = true →
      executeUpdate b node = (b, none)) ∧
    (ArePodTemplateSpecDifferent cur.template node.self.template = false →
      executeUpdate b node =
        ({ b with
            dpl := some { cur with
              template := createUpdatablePodTemplateSpec cur.template
                node.self.template }
            writes := b.writes + 1 }, none)) := by
  constructor
  · intro hc; rw [executeUpdate, deploymentUpdate, h]; simp [hc]
  · intro hc; rw [executeUpdate, deploymentUpdate, h]; simp [hc]

/-- refreshHashes only rewrites the recorded digests, never the in-memory
workload copy or the stored desired count. -/
theorem refreshHashes_self (b : Backend) (node node' : DeploymentNode)
    (h : refreshHashes b node = some node') :
    node'.self = node.self ∧ node'.replicas = node.replicas := by
  rw [refreshHashes] at h
  cases hc : getConfigmapDataHash b with
  | none => rw [hc] at h; simp at h
  | some ch =>
    rw [hc] at h
    simp only [Option.some.injEq] at h
    subst h
    constructor <;> split <;> split <;> rfl

/-- pollFrom on a condition that never errors either succeeds or times
out. -/
theorem pollFrom_bool_none_or_timeout (cond : Nat → Bool) :
    ∀ fuel start, pollFrom (fun i => Sum.inr (cond i)) start fuel = none ∨
      pollFrom (fun i => Sum.inr (cond i)) start fuel = some OpErr.timeout := by
  intro fuel
  induction fuel with
  | zero => intro start; right; rfl
  | succ n ih =>
    intro start
    cases h : cond start with
    | true => left; simp [pollFrom, h]
    | false => simpa [pollFrom, h] using ih (start + 1)

/-- A rollout wait whose predicate fails on every tick within the
deadline returns the timeout error. -/
theorem waitForNodeRollout_timeout (node : DeploymentNode)
    (podsAt : Nat → Option (List PodSpec))
    (hfail : ∀ i < numRolloutPolls,
      checkPodSpecMatches node.self.template (podsAt i) = false) :
    waitForNodeRollout node podsAt = some OpErr.timeout := by
  rcases pollFrom_bool_none_or_timeout
      (fun i => checkPodSpecMatches node.self.template (podsAt i))
      numRolloutPolls 0 with h | h
  · rw [pollFrom_bool_eq_none_iff] at h
    rcases h with ⟨j, hj, hcj⟩
    rw [Nat.zero_add] at hcj
    rw [hfail j hj] at hcj
    simp at hcj
  · exact h

/-- C3 (amended): after a successful progressNodeChanges that took the
update path the paused flag is true both in memory and on the backend;
the no-op entry path returns success without touching anything, so there
the flag keeps whatever value it had (possibly false). -/
theorem c3_progress_pause_discipline (b : Backend) (node : DeploymentNode)
    (podsAt : Nat → Option (List PodSpec)) :
    ((!isChanged b node && podSpecMatches node (podsAt 0)) = true →
      progressNodeChanges b node podsAt = (b, node, none)) ∧
    ((!isChanged b node && podSpecMatches node (podsAt 0)) = false →
      (progressNodeChanges b node podsAt).2.2 = none →
      (progressNodeChanges b node podsAt).2.1.self.paused = true ∧
      ∃ d, (progressNodeChanges b node podsAt).1.dpl = some d ∧
        d.paused = true) := by
  constructor
  · intro h
    rw [progressNodeChanges, if_pos h]
  · intro h hok
    rw [progressNodeChanges, if_neg (by simp [h])] at hok ⊢
    split at hok
    next b1 e heq => simp at hok
    next b1 heq =>
      split at hok
      next b2 node2 e heq2 => simp at hok
      next b2 node2 heq2 =>
        rcases setPaused_ok_shape b1 node false b2 node2 heq2 with
          ⟨hnode2, cur, hcur, hb2⟩
        have hb2dpl : b2.dpl = some { cur with paused := false } := by
          rw [hb2]
        split at hok
        next e heq3 => simp at hok
        next heq3 =>
          rw [pause, setPaused_some b2 node2 true _ hb2dpl] at hok ⊢
          dsimp only at hok ⊢
          split at hok
          next heq4 => simp at hok
          next node4 heq4 =>
            dsimp only
            rcases refreshHashes_self _ _ _ heq4 with ⟨hself, -⟩
            rw [hself]
            exact ⟨rfl, { cur with paused := true }, rfl, rfl⟩

/-- The strict pod-spec difference rule spelled out as the disjunction of
its triggers. -/
theorem ArePodSpecDifferent_strict_iff (lhs rhs : PodSpec) :
    ArePodSpecDifferent lhs rhs true = true ↔
      (lhs.containers.length ≠ rhs.containers.length ∨
       AreSelectorsSame lhs.nodeSelector rhs.nodeSelector = false ∨
       AreTolerationsSame lhs.tolerations rhs.tolerations = false ∨
       ∃ lC ∈ lhs.containers,
         (∃ rC ∈ rhs.containers,
           lC.name = rC.name ∧ containerFieldsMismatch lC rC = true) ∨
         ∀ rC ∈ rhs.containers, lC.name ≠ rC.name) := by
  simp only [ArePodSpecDifferent, if_true, Bool.or_eq_true,
    decide_eq_true_eq, Bool.not_eq_true', List.any_eq_true,
    Bool.and_eq_true, List.any_eq_false]
  constructor
  · rintro (((h | h) | h) | ⟨lC, hlC, h⟩)
    · exact Or.inl h
    · exact Or.inr (Or.inl h)
    · exact Or.inr (Or.inr (Or.inl h))
    · refine Or.inr (Or.inr (Or.inr ⟨lC, hlC, ?_⟩))
      rcases h with ⟨rC, hrC, hname, hmm⟩ | h
      · exact Or.inl ⟨rC, hrC, hname, hmm⟩
      · exact Or.inr fun rC hrC => by simpa using h rC hrC
  · rintro (h | h | h | ⟨lC, hlC, h⟩)
    · exact Or.inl (Or.inl (Or.inl h))
    · exact Or.inl (Or.inl (Or.inr h))
    · exact Or.inl (Or.inr h)
    · refine Or.inr ⟨lC, hlC, ?_⟩
      rcases h with ⟨rC, hrC, hname, hmm⟩ | h
      · exact Or.inl ⟨rC, hrC, hname, hmm⟩
      · exact Or.inr fun rC hrC => by simpa using h rC hrC

/-- C7: isChanged() is true exactly when the workload is absent from the
backend or the live template differs from the desired one under the
strict pod-spec-difference rule: differing container count, node
selectors, strict tolerations, a per-container field mismatch between
same-named containers, or a live container whose name appears on no
desired container. -/
theorem c7_isChanged_absent_or_template_diff (b : Backend)
    (node : DeploymentNode) :
    isChanged b node = true ↔
      b.dpl = none ∨
      ∃ cur, b.dpl = some cur ∧
        (cur.template.containers.length ≠
            node.self.template.containers.length ∨
         AreSelectorsSame cur.template.nodeSelector
            node.self.template.nodeSelector = false ∨
         AreTolerationsSame cur.template.tolerations
            node.self.template.tolerations = false ∨
         ∃ lC ∈ cur.template.containers,
           (∃ rC ∈ node.self.template.containers,
             lC.name = rC.name ∧ containerFieldsMismatch lC rC = true) ∨
           ∀ rC ∈ node.self.template.containers, lC.name ≠ rC.name) := by
  cases hd : b.dpl with
  | none => simp [isChanged, hd]
  | some cur =>
    rw [isChanged, hd]
    dsimp only
    rw [ArePodTemplateSpecDifferent, ArePodSpecDifferent_strict_iff]
    simp [hd]

/-- A settled fixture group: live and desired templates equal, the one
live pod matching, and the paused flag false everywhere (the state left
behind by a timed-out earlier pass after its pods converged). -/
def backendSettled : Backend :=
  ⟨some ⟨"123", 3, false, tmplDesired, some "1"⟩,
   some [("tls.key", "s")], some [("elasticsearch.yml", "c")], 0⟩

/-- The node record of the settled fixture group. -/
def nodeSettled : DeploymentNode :=
  ⟨⟨"123", 3, false, tmplDesired, some "1"⟩, [], [], 3⟩

/-- Pod listing of the settled fixture group. -/
def obsSettled : Nat → Option (List PodSpec) := fun _ => some [tmplDesired]

/-- C3 counterexample: on the settled-but-unpaused group the call takes
the no-op entry path and returns success, yet the paused flag is false
afterwards both in memory and on the backend, so success does not imply
paused. -/
theorem c3_counterexample :
    (progressNodeChanges backendSettled nodeSettled obsSettled).2.2 =
      none ∧
    (progressNodeChanges backendSettled nodeSettled obsSettled).2.1.self.paused =
      false ∧
    (progressNodeChanges backendSettled nodeSettled obsSettled).1.dpl =
      some ⟨"123", 3, false, tmplDesired, some "1"⟩ := by decide

/-- C3 witness: the pause-discipline theorem applied to the drifted
fixture group, whose run takes the update path and ends paused. -/
theorem c3_progress_pause_discipline_witness :
    (progressNodeChanges backend0 node0 obs0).2.1.self.paused = true ∧
    ∃ d, (progressNodeChanges backend0 node0 obs0).1.dpl = some d ∧
      d.paused = true :=
  (c3_progress_pause_discipline backend0 node0 obs0).2 (by decide) (by decide)

/-- executeUpdate on a present store never errors and leaves some object
in the store. -/
theorem executeUpdate_ok (b : Backend) (node : DeploymentNode)
    (cur : Deployment) (h : b.dpl = some cur) :
    (executeUpdate b node).2 = none ∧
    ∃ cur1, (executeUpdate b node).1.dpl = some cur1 := by
  rcases executeUpdate_shape b node cur h with ⟨ht, hf⟩
  cases hc : ArePodTemplateSpecDifferent cur.template node.self.template
  · rw [hf hc]; exact ⟨rfl, _, rfl⟩
  · rw [ht hc]; exact ⟨rfl, cur, h⟩

/-- C4: when the workload exists but no poll within the 30-attempt
deadline observes a matching pod, progressNodeChanges surfaces the
timeout error, no pause follows the failed wait, and the group is left
unpaused in memory and on the backend. -/
theorem c4_rollout_timeout_leaves_unpaused (b : Backend)
    (node : DeploymentNode) (cur : Deployment)
    (podsAt : Nat → Option (List PodSpec))
    (hdpl : b.dpl = some cur)
    (hfail : ∀ i < numRolloutPolls,
      checkPodSpecMatches node.self.template (podsAt i) = false) :
    (progressNodeChanges b node podsAt).2.2 = some OpErr.timeout ∧
    (progressNodeChanges b node podsAt).2.1.self.paused = false ∧
    ∃ d, (progressNodeChanges b node podsAt).1.dpl = some d ∧
      d.paused = false := by
  have hmatch0 : podSpecMatches node (podsAt 0) = false :=
    hfail 0 (by decide)
  rw [progressNodeChanges, if_neg (by simp [hmatch0])]
  split
  next b1 e heq =>
    rcases executeUpdate_ok b node cur hdpl with ⟨h2, -⟩
    rw [heq] at h2
    simp at h2
  next b1 heq =>
    rcases executeUpdate_ok b node cur hdpl with ⟨-, cur1, hcur1⟩
    rw [heq] at hcur1
    dsimp only at hcur1
    rw [unpause, setPaused_some b1 node false cur1 hcur1]
    dsimp only
    rw [waitForNodeRollout_timeout
      { node with self := { node.self with paused := false } } podsAt hfail]
    dsimp only
    exact ⟨rfl, rfl, { cur1 with paused := false }, rfl, rfl⟩

/-- C4 witness: the timeout theorem applied to the drifted fixture group
with a pod listing that never matches. -/
theorem c4_rollout_timeout_witness :
    (progressNodeChanges backend0 node0 obsBad).2.2 = some OpErr.timeout ∧
    (progressNodeChanges backend0 node0 obsBad).2.1.self.paused = false ∧
    ∃ d, (progressNodeChanges backend0 node0 obsBad).1.dpl = some d ∧
      d.paused = false :=
  c4_rollout_timeout_leaves_unpaused backend0 node0 dplLive obsBad rfl
    (by decide)

/-- A backend with no workload object and both bundles present. -/
def backendAbsent : Backend :=
  ⟨none, some [("tls.key", "s")], some [("elasticsearch.yml", "c")], 0⟩

/-- C6 counterexample: create on an absent workload writes the object
unpaused (the source comment says created unpaused, pause after
deployment), observable because a failed initial-rollout wait returns
before the final pause and leaves the freshly created object with the
paused flag false. -/
theorem c6_counterexample :
    (create backendAbsent (populateReference tmplDesired 3)
        (fun _ => some ⟨"", 3, false, tmplDesired, none⟩)).2.2 =
      some OpErr.timeout ∧
    (create backendAbsent (populateReference tmplDesired 3)
        (fun _ => some ⟨"", 3, false, tmplDesired, none⟩)).1.dpl =
      some ⟨"", 3, false, tmplDesired, none⟩ := by decide

/-- C6 (amended): create on an absent workload creates the object
unpaused, and once the initial-rollout wait succeeds it records both
bundle digests as baselines and then pauses, so on success the final
workload is paused with replicas equal to the desired count and the
recorded baselines equal the current bundle digests. -/
theorem c6_create_result (b : Backend) (tmpl : PodSpec) (r : Int)
    (cd sd : List (String × String)) (getAt : Nat → Option Deployment)
    (hdpl : b.dpl = none) (hcd : b.configData = some cd)
    (hsd : b.secretData = some sd)
    (hwait : waitForInitialRollout getAt = none) :
    create b (populateReference tmpl r) getAt =
      ({ b with dpl := some ⟨"", r, true, tmpl, none⟩,
                writes := b.writes + 2 },
       ⟨⟨"", r, true, tmpl, none⟩, configmapDataHashOf cd,
        secretDataHashOf sd, r⟩, none) := by
  have h1 : deploymentCreate b (populateReference tmpl r).self =
      ({ b with dpl := some (populateReference tmpl r).self,
                writes := b.writes + 1 }, OperationResultType.created) := by
    rw [deploymentCreate, hdpl]
  rw [create,
    if_pos (show (populateReference tmpl r).self.resourceVersion = ""
      from rfl),
    hwait, h1]
  dsimp only [getConfigmapDataHash, getSecretDataHash]
  rw [hcd, hsd]
  dsimp only
  simp [pause, setPaused, deploymentUpdate, populateReference]

/-- C6 witness: the create theorem applied to the absent fixture backend
with an observation that shows the revision at the first tick. -/
theorem c6_create_result_witness :
    create backendAbsent (populateReference tmplDesired 3)
        (fun _ => some ⟨"", 3, false, tmplDesired, some "1"⟩) =
      ({ backendAbsent with
          dpl := some ⟨"", 3, true, tmplDesired, none⟩, writes := 2 },
       ⟨⟨"", 3, true, tmplDesired, none⟩,
        configmapDataHashOf [("elasticsearch.yml", "c")],
        secretDataHashOf [("tls.key", "s")], 3⟩, none) :=
  c6_create_result backendAbsent tmplDesired 3 _ _ _ rfl rfl rfl (by decide)

/-- sha256Model always produces a 32-entry digest. -/
theorem sha256Model_length (s : String) : (sha256Model s).length = 32 := by
  simp [sha256Model]

/-- Flattening fixed-width blocks is injective. -/
theorem flatten_blocks_inj (xs : List (List Nat)) :
    ∀ ys : List (List Nat),
    (∀ bl ∈ xs, bl.length = 32) → (∀ bl ∈ ys, bl.length = 32) →
    xs.flatten = ys.flatten → xs = ys := by
  induction xs with
  | nil =>
    intro ys _ hy h
    cases ys with
    | nil => rfl
    | cons bl ys =>
      exfalso
      rw [List.flatten_nil, List.flatten_cons] at h
      rcases List.append_eq_nil.mp h.symm with ⟨hb, -⟩
      have h32 := hy bl (by simp)
      rw [hb] at h32
      simp at h32
  | cons bx xs ih =>
    intro ys hx hy h
    cases ys with
    | nil =>
      exfalso
      rw [List.flatten_cons, List.flatten_nil] at h
      rcases List.append_eq_nil.mp h with ⟨hb, -⟩
      have h32 := hx bx (by simp)
      rw [hb] at h32
      simp at h32
    | cons b2 ys =>
      rw [List.flatten_cons, List.flatten_cons] at h
      have hlen : bx.length = b2.length := by
        rw [hx bx (by simp), hy b2 (by simp)]
      obtain ⟨h1, h2⟩ := List.append_inj h hlen
      rw [h1, ih ys (fun bl hb => hx bl (by simp [hb]))
        (fun bl hb => hy bl (by simp [hb])) h2]

/-- Sorting is determined by the multiset of keys. -/
theorem sortDataHashKeys_perm_eq {keys₁ keys₂ : List String}
    (h : keys₁.Perm keys₂) :
    sortDataHashKeys keys₁ = sortDataHashKeys keys₂ :=
  List.eq_of_perm_of_sorted
    ((List.perm_insertionSort _ keys₁).trans
      (h.trans (List.perm_insertionSort _ keys₂).symm))
    (List.sorted_insertionSort _ keys₁)
    (List.sorted_insertionSort _ keys₂)

/-- With unique keys the stored value under a present key is the value of
its entry. -/
theorem lookupValue_eq_of_mem :
    ∀ {data : List (String × String)} {k v : String},
    (data.map Prod.fst).Nodup → (k, v) ∈ data → lookupValue data k = v := by
  intro data
  induction data with
  | nil => intro k v _ hm; simp at hm
  | cons kv rest ih =>
    intro k v hnd hm
    rw [List.map_cons, List.nodup_cons] at hnd
    rcases List.mem_cons.mp hm with hm | hm
    · subst hm
      rw [lookupValue, List.find?_cons_of_pos _ (by simp)]
    · have hk : k ∈ rest.map Prod.fst := List.mem_map.mpr ⟨(k, v), hm, rfl⟩
      have hne : kv.1 ≠ k := fun he => hnd.1 (he ▸ hk)
      rw [lookupValue, List.find?_cons_of_neg _ (by simp [hne])]
      exact ih hnd.2 hm

/-- An absent key looks up to the default empty value. -/
theorem lookupValue_eq_empty {data : List (String × String)} {k : String}
    (h : k ∉ data.map Prod.fst) : lookupValue data k = "" := by
  have hn : data.find? (fun kv => decide (kv.1 = k)) = none :=
    List.find?_eq_none.mpr (fun kv hkv => by
      simp only [decide_eq_true_eq]
      exact fun he => h (List.mem_map.mpr ⟨kv, hkv, he⟩))
  rw [lookupValue, hn]

/-- With unique keys, lookup only depends on the multiset of entries. -/
theorem lookupValue_perm {data₁ data₂ : List (String × String)}
    (h : data₁.Perm data₂) (hnd : (data₁.map Prod.fst).Nodup) (k : String) :
    lookupValue data₁ k = lookupValue data₂ k := by
  have hnd₂ : (data₂.map Prod.fst).Nodup := ((h.map Prod.fst).nodup_iff).mp hnd
  by_cases hk : k ∈ data₁.map Prod.fst
  · rcases List.mem_map.mp hk with ⟨kv, hkv, hfst⟩
    obtain ⟨k', v⟩ := kv
    cases hfst
    rw [lookupValue_eq_of_mem hnd hkv,
      lookupValue_eq_of_mem hnd₂ (h.mem_iff.mp hkv)]
  · have hk₂ : k ∉ data₂.map Prod.fst :=
      fun hc => hk (((h.map Prod.fst).mem_iff).mpr hc)
    rw [lookupValue_eq_empty hk, lookupValue_eq_empty hk₂]

/-- The digest core only depends on the multiset of entries: iteration
and insertion order of the bundle keys is irrelevant. -/
theorem dataHashCore_perm {data₁ data₂ : List (String × String)}
    (h : data₁.Perm data₂) (hnd : (data₁.map Prod.fst).Nodup) :
    dataHashCore data₁ = dataHashCore data₂ := by
  rw [dataHashCore, dataHashCore, sortDataHashKeys_perm_eq (h.map Prod.fst)]
  congr 1
  apply List.map_congr_left
  intro k _
  rw [lookupValue_perm h hnd k]

/-- Digest blocks of the core are the per-key model digests, each of
width 32. -/
theorem dataHashCore_blocks_length (data : List (String × String)) :
    ∀ bl ∈ (sortDataHashKeys (data.map Prod.fst)).map
      (fun k => sha256Model (lookupValue data k)), bl.length = 32 := by
  intro bl hb
  rcases List.mem_map.mp hb with ⟨k, -, rfl⟩
  exact sha256Model_length _

/-- The length of the digest core counts one 32-entry block per key. -/
theorem dataHashCore_length (data : List (String × String)) :
    (dataHashCore data).length = 32 * (data.map Prod.fst).length := by
  rw [dataHashCore, List.length_flatten, List.map_map]
  have hsum : ∀ ks : List String,
      (ks.map (List.length ∘ fun k => sha256Model (lookupValue data k))).sum
        = 32 * ks.length := by
    intro ks
    induction ks with
    | nil => simp
    | cons a l ihl =>
      rw [List.map_cons, List.sum_cons, ihl]
      simp only [Function.comp_apply, sha256Model_length, List.length_cons]
      ring
  rw [hsum, sortDataHashKeys]
  rw [(List.perm_insertionSort _ _).length_eq]

/-- Replace the value stored under one key, keeping every other entry. -/
def setKey (data : List (String × String)) (k v : String) :
    List (String × String) :=
  data.map (fun kv => if kv.1 = k then (kv.1, v) else kv)

/-- setKey keeps the key sequence unchanged. -/
theorem setKey_map_fst (data : List (String × String)) (k v : String) :
    (setKey data k v).map Prod.fst = data.map Prod.fst := by
  rw [setKey, List.map_map]
  apply List.map_congr_left
  intro kv _
  by_cases h : kv.1 = k <;> simp [h]

/-- setKey stores the new value under a present key. -/
theorem lookupValue_setKey :
    ∀ {data : List (String × String)} {k : String} (v : String),
    k ∈ data.map Prod.fst → lookupValue (setKey data k v) k = v := by
  intro data
  induction data with
  | nil => intro k v hk; simp at hk
  | cons kv rest ih =>
    intro k v hk
    by_cases h : kv.1 = k
    · rw [setKey, List.map_cons, if_pos h, lookupValue,
        List.find?_cons_of_pos _ (by simp [h])]
    · rw [setKey, List.map_cons, if_neg h, lookupValue,
        List.find?_cons_of_neg _ (by simp [h])]
      have hk' : k ∈ rest.map Prod.fst := by
        rcases List.mem_map.mp hk with ⟨kv', hkv', he⟩
        rcases List.mem_cons.mp hkv' with h1 | h1
        · exact absurd (h1 ▸ he) h
        · exact List.mem_map.mpr ⟨kv', h1, he⟩
      exact ih v hk'

/-- Pointwise equality from equality of mapped lists. -/
theorem map_eq_imp_eq_at_mem {α β : Type} {f g : α → β} :
    ∀ {l : List α}, l.map f = l.map g → ∀ a ∈ l, f a = g a := by
  intro l
  induction l with
  | nil => intro _ a ha; simp at ha
  | cons x xs ih =>
    intro h a ha
    simp only [List.map_cons, List.cons.injEq] at h
    rcases List.mem_cons.mp ha with rfl | ha
    · exact h.1
    · exact ih h.2 a ha

/-- Changing the value under one key changes the digest core, provided
the two value digests collide on nothing (the spec's collision-tolerant
reading of SHA-256). -/
theorem dataHashCore_setKey_ne {data : List (String × String)}
    {k v v' : String} (hnd : (data.map Prod.fst).Nodup)
    (hm : (k, v) ∈ data) (hcoll : sha256Model v ≠ sha256Model v') :
    dataHashCore (setKey data k v') ≠ dataHashCore data := by
  intro heq
  rw [dataHashCore, dataHashCore, setKey_map_fst] at heq
  have hblocks := flatten_blocks_inj _ _
    (by
      intro bl hb
      rcases List.mem_map.mp hb with ⟨k', -, rfl⟩
      exact sha256Model_length _)
    (dataHashCore_blocks_length data) heq
  have hkmem : k ∈ data.map Prod.fst := List.mem_map.mpr ⟨(k, v), hm, rfl⟩
  have hk : k ∈ sortDataHashKeys (data.map Prod.fst) := by
    rw [sortDataHashKeys]
    exact (List.perm_insertionSort _ _).mem_iff.mpr hkmem
  have hpt := map_eq_imp_eq_at_mem hblocks k hk
  rw [lookupValue_setKey v' hkmem, lookupValue_eq_of_mem hnd hm] at hpt
  exact hcoll hpt.symm

/-- Overwriting the volatile key's value leaves the filtered entries
untouched. -/
theorem filter_setKey_volatile (data : List (String × String))
    (i w : String) :
    (setKey data i w).filter (fun kv => decide (kv.1 ≠ i)) =
      data.filter (fun kv => decide (kv.1 ≠ i)) := by
  induction data with
  | nil => rfl
  | cons kv rest ih =>
    simp only [setKey] at ih ⊢
    by_cases h : kv.1 = i
    · rw [List.map_cons, if_pos h,
        List.filter_cons_of_neg (by simp [h]),
        List.filter_cons_of_neg (by simp [h])]
      exact ih
    · rw [List.map_cons, if_neg h,
        List.filter_cons_of_pos (by simp [h]),
        List.filter_cons_of_pos (by simp [h])]
      exact congrArg _ ih

/-- Overwriting a non-volatile key's value commutes with dropping the
volatile key. -/
theorem filter_setKey_commute (data : List (String × String))
    (k v i : String) (hki : k ≠ i) :
    (setKey data k v).filter (fun kv => decide (kv.1 ≠ i)) =
      setKey (data.filter (fun kv => decide (kv.1 ≠ i))) k v := by
  induction data with
  | nil => rfl
  | cons kv rest ih =>
    simp only [setKey] at ih ⊢
    by_cases hk : kv.1 = k
    · rw [List.map_cons, if_pos hk,
        List.filter_cons_of_pos (by simp [hk, hki]),
        List.filter_cons_of_pos (by simp [hk, hki]),
        List.map_cons, if_pos hk]
      exact congrArg _ ih
    · by_cases hi : kv.1 = i
      · rw [List.map_cons, if_neg hk,
          List.filter_cons_of_neg (by simp [hi]),
          List.filter_cons_of_neg (by simp [hi])]
        exact ih
      · rw [List.map_cons, if_neg hk,
          List.filter_cons_of_pos (by simp [hi]),
          List.filter_cons_of_pos (by simp [hi]),
          List.map_cons, if_neg hk]
        exact congrArg _ ih

/-- C9: both bundle digests are invariant under the iteration order of
the bundle entries; overwriting the value stored under a non-volatile key
whose model digest changes, or adding (equivalently, removing) a
non-volatile key, changes either digest; overwriting only the volatile
index_settings entry leaves the configuration digest unchanged.  The
value-change parts carry the distinctness of the two value digests as an
explicit hypothesis, which is the spec's collision-tolerant reading of
SHA-256. -/
theorem c9_fingerprint_determinism
    (data₁ data₂ data : List (String × String)) (k v v' knew vnew w : String)
    (hperm : data₁.Perm data₂) (hnd₁ : (data₁.map Prod.fst).Nodup)
    (hnd : (data.map Prod.fst).Nodup) (hm : (k, v) ∈ data)
    (hkvol : k ≠ "index_settings")
    (hcoll : sha256Model v ≠ sha256Model v')
    (hknew : knew ∉ data.map Prod.fst)
    (hnewvol : knew ≠ "index_settings") :
    (secretDataHashOf data₁ = secretDataHashOf data₂ ∧
     configmapDataHashOf data₁ = configmapDataHashOf data₂) ∧
    (secretDataHashOf (setKey data k v') ≠ secretDataHashOf data ∧
     configmapDataHashOf (setKey data k v') ≠ configmapDataHashOf data) ∧
    (secretDataHashOf ((knew, vnew) :: data) ≠ secretDataHashOf data ∧
     configmapDataHashOf ((knew, vnew) :: data) ≠
       configmapDataHashOf data) ∧
    configmapDataHashOf (setKey data "index_settings" w) =
      configmapDataHashOf data := by
  have hndFilter : ∀ dl : List (String × String),
      (dl.map Prod.fst).Nodup →
      ((dl.filter (fun kv => decide (kv.1 ≠ "index_settings"))).map
        Prod.fst).Nodup :=
    fun dl hdl => hdl.sublist ((List.filter_sublist dl).map Prod.fst)
  refine ⟨⟨?_, ?_⟩, ⟨?_, ?_⟩, ⟨?_, ?_⟩, ?_⟩
  · exact dataHashCore_perm hperm hnd₁
  · exact dataHashCore_perm (hperm.filter _) (hndFilter data₁ hnd₁)
  · exact dataHashCore_setKey_ne hnd hm hcoll
  · rw [configmapDataHashOf, configmapDataHashOf,
      filter_setKey_commute data k v' _ hkvol]
    exact dataHashCore_setKey_ne (hndFilter data hnd)
      (List.mem_filter.mpr ⟨hm, by simp [hkvol]⟩) hcoll
  · intro heq
    have hlen := congrArg List.length heq
    rw [secretDataHashOf, secretDataHashOf, dataHashCore_length,
      dataHashCore_length] at hlen
    simp only [List.map_cons, List.length_cons] at hlen
    omega
  · intro heq
    rw [configmapDataHashOf, configmapDataHashOf,
      List.filter_cons_of_pos (by simp [hnewvol])] at heq
    have hlen := congrArg List.length heq
    rw [dataHashCore_length, dataHashCore_length] at hlen
    simp only [List.map_cons, List.length_cons] at hlen
    omega
  · rw [configmapDataHashOf, configmapDataHashOf, filter_setKey_volatile]

/-- C9 witness: the determinism theorem applied to two concrete bundle
orders and concrete key edits. -/
theorem c9_fingerprint_determinism_witness :
    (secretDataHashOf [("a", "x"), ("b", "y")] =
       secretDataHashOf [("b", "y"), ("a", "x")] ∧
     configmapDataHashOf [("a", "x"), ("b", "y")] =
       configmapDataHashOf [("b", "y"), ("a", "x")]) ∧
    (secretDataHashOf (setKey [("a", "x"), ("index_settings", "z")] "a" "q") ≠
       secretDataHashOf [("a", "x"), ("index_settings", "z")] ∧
     configmapDataHashOf
         (setKey [("a", "x"), ("index_settings", "z")] "a" "q") ≠
       configmapDataHashOf [("a", "x"), ("index_settings", "z")]) ∧
    (secretDataHashOf (("b", "u") :: [("a", "x"), ("index_settings", "z")]) ≠
       secretDataHashOf [("a", "x"), ("index_settings", "z")] ∧
     configmapDataHashOf
         (("b", "u") :: [("a", "x"), ("index_settings", "z")]) ≠
       configmapDataHashOf [("a", "x"), ("index_settings", "z")]) ∧
    configmapDataHashOf
        (setKey [("a", "x"), ("index_settings", "z")] "index_settings" "t") =
      configmapDataHashOf [("a", "x"), ("index_settings", "z")] :=
  c9_fingerprint_determinism [("a", "x"), ("b", "y")]
    [("b", "y"), ("a", "x")] [("a", "x"), ("index_settings", "z")]
    "a" "x" "q" "b" "u" "t" (by decide) (by decide) (by decide) (by decide)
    (by decide) (by decide) (by decide) (by decide)

/-- C10 witness: the polarity theorem applied to the fixture backend and
a singleton statefulset store with constant compare functions. -/
theorem c10_update_gate_polarity_witness :
    (deploymentUpdate backend0 dplLive (fun _ _ => false) (fun current _ => current) =
      ({ backend0 with dpl := some dplLive, writes := 1 },
       OperationResultType.updated, none)) ∧
    (deploymentUpdate backend0 dplLive (fun _ _ => true) (fun current _ => current) =
      (backend0, OperationResultType.unchanged, none)) ∧
    (statefulsetUpdate ⟨some ⟨3, tmplLive⟩, 0⟩ ⟨3, tmplLive⟩
        (fun _ _ => true) (fun current _ => current) =
      (⟨some ⟨3, tmplLive⟩, 1⟩, OperationResultType.updated, none)) ∧
    (statefulsetUpdate ⟨some ⟨3, tmplLive⟩, 0⟩ ⟨3, tmplLive⟩
        (fun _ _ => false) (fun current _ => current) =
      (⟨some ⟨3, tmplLive⟩, 0⟩, OperationResultType.unchanged, none)) := by
  refine ⟨?_, ?_, ?_, ?_⟩
  · exact (c10_update_gate_polarity backend0 dplLive dplLive _ _
      ⟨some ⟨3, tmplLive⟩, 0⟩ ⟨3, tmplLive⟩ ⟨3, tmplLive⟩
      (fun _ _ => true) (fun current _ => current) rfl rfl).1 rfl
  · exact (c10_update_gate_polarity backend0 dplLive dplLive _ _
      ⟨some ⟨3, tmplLive⟩, 0⟩ ⟨3, tmplLive⟩ ⟨3, tmplLive⟩
      (fun _ _ => true) (fun current _ => current) rfl rfl).2.1 rfl
  · exact (c10_update_gate_polarity backend0 dplLive dplLive
      (fun _ _ => true) (fun current _ => current)
      ⟨some ⟨3, tmplLive⟩, 0⟩ ⟨3, tmplLive⟩ ⟨3, tmplLive⟩ _ _ rfl rfl).2.2.1 rfl
  · exact (c10_update_gate_polarity backend0 dplLive dplLive
      (fun _ _ => true) (fun current _ => current)
      ⟨some ⟨3, tmplLive⟩, 0⟩ ⟨3, tmplLive⟩ ⟨3, tmplLive⟩ _ _ rfl rfl).2.2.2 rfl


